import Mathlib

/-!
Verification of the intercom conversation export script: a shallow embedding of
its pagination loop, detail fetch, transcript formatter and CSV writer, with a
verified model of the ISO-8601 UTC timestamp rendering used by the formatter.
Dict fields are modeled as double options: none is an absent key, some none a
key holding null, some (some v) a key holding v.
-/

/-- Days-before-year within a 400-year era, for a year-of-era `y ≤ 399`. -/
def dby (y : Nat) : Nat := 365 * y + y / 4 - y / 100

/-- Numerator used to recover the year-of-era from the day-of-era. -/
def civilNum (doe : Nat) : Nat := doe - doe / 1460 + doe / 36524 - doe / 146096

/-- Year-of-era from day-of-era. -/
def yoeOf (doe : Nat) : Nat := civilNum doe / 365

def dbyNext (y : Nat) : Nat := if y = 399 then 146097 else dby (y + 1)

/-- Month (1..12) from the shifted month index mp (0..11, March-based). -/
def mOfMp (mp : Nat) : Nat := if mp < 10 then mp + 3 else mp - 9

/-- Shifted month index mp from the month (1..12). -/
def mpOfM (m : Nat) : Nat := if m > 2 then m - 3 else m + 9

/-- Day-of-era (0..146096) of a day count (days since 0001-01-01, shifted to the
0000-03-01 anchor of the 400-year cycle). -/
def doeOf (days : Nat) : Nat := (days + 306) % 146097

def eraOf (days : Nat) : Nat := (days + 306) / 146097

def doyOf (doe : Nat) : Nat := doe - dby (yoeOf doe)

def mpOfDoy (doy : Nat) : Nat := (5 * doy + 2) / 153

def dOfDoy (doy : Nat) : Nat := doy - (153 * mpOfDoy doy + 2) / 5 + 1

/-- Year of a day count measured in days since 0001-01-01. -/
def yearOfDays (days : Nat) : Nat :=
  eraOf days * 400 + yoeOf (doeOf days) +
    (if mOfMp (mpOfDoy (doyOf (doeOf days))) ≤ 2 then 1 else 0)

/-- Month of a day count measured in days since 0001-01-01. -/
def monthOfDays (days : Nat) : Nat := mOfMp (mpOfDoy (doyOf (doeOf days)))

/-- Day-of-month of a day count measured in days since 0001-01-01. -/
def dayOfDays (days : Nat) : Nat := dOfDoy (doyOf (doeOf days))

/-- Day count (days since 0001-01-01) of a civil date. -/
def days_from_civil (y m d : Nat) : Nat :=
  (y - (if m ≤ 2 then 1 else 0)) / 400 * 146097 +
      (dby ((y - (if m ≤ 2 then 1 else 0)) % 400) + ((153 * mpOfM m + 2) / 5 + d - 1)) - 306

/-- Lower bound of the range of timestamps datetime can represent (0001-01-01T00:00:00 UTC). -/
def datetimeMin : Int := -62135596800

/-- Upper bound of the range of timestamps datetime can represent (9999-12-31T23:59:59 UTC). -/
def datetimeMax : Int := 253402300799

/-- Seconds since 0001-01-01T00:00:00 UTC of a timestamp. -/
def civilSecs (t : Int) : Nat := (t + 62135596800).toNat

def daysOf (t : Int) : Nat := civilSecs t / 86400

def sodOf (t : Int) : Nat := civilSecs t % 86400

/-- The decimal digit character for n % 10. -/
def dc (n : Nat) : Char := Char.ofNat (48 + n % 10)

def digit? (c : Char) : Option Nat := if c.isDigit then some (c.toNat - 48) else none

/-- The character sequence YYYY-MM-DDTHH:MM:SS+00:00 (zero-padded fields). -/
def isoChars (y mo d h mi s : Nat) : List Char :=
  [dc (y / 1000), dc (y / 100), dc (y / 10), dc y, '-',
   dc (mo / 10), dc mo, '-', dc (d / 10), dc d, 'T',
   dc (h / 10), dc h, ':', dc (mi / 10), dc mi, ':',
   dc (s / 10), dc s, '+', '0', '0', ':', '0', '0']

/-- The ISO-8601 UTC rendering of an in-range timestamp, as produced by
datetime.fromtimestamp(t, timezone.utc).isoformat() for whole seconds. -/
def isoString (t : Int) : String :=
  String.mk (isoChars (yearOfDays (daysOf t)) (monthOfDays (daysOf t)) (dayOfDays (daysOf t))
    (sodOf t / 3600) (sodOf t % 3600 / 60) (sodOf t % 60))

/-- Models datetime.fromtimestamp(t, timezone.utc).isoformat(): defined exactly on
the datetime-representable range; none models the ValueError raised outside it. -/
def fromtimestamp_iso (t : Int) : Option String :=
  if t < datetimeMin ∨ datetimeMax < t then none else some (isoString t)

/-- Reads two decimal digits. -/
def read2 : List Char → Option (Nat × List Char)
  | c1 :: c2 :: rest =>
    (digit? c1).bind fun d1 => (digit? c2).bind fun d2 => some (10 * d1 + d2, rest)
  | _ => none

/-- Reads four decimal digits. -/
def read4 : List Char → Option (Nat × List Char)
  | c1 :: c2 :: c3 :: c4 :: rest =>
    (digit? c1).bind fun d1 => (digit? c2).bind fun d2 => (digit? c3).bind fun d3 =>
      (digit? c4).bind fun d4 => some (1000 * d1 + 100 * d2 + 10 * d3 + d4, rest)
  | _ => none

def expectChar (c : Char) : List Char → Option (List Char)
  | x :: rest => if x = c then some rest else none
  | [] => none

/-- Accepts exactly the suffix +00:00 at the end of the input. -/
def expectTail (cs : List Char) : Option Unit :=
  ((((((expectChar '+' cs).bind (expectChar '0')).bind (expectChar '0')).bind
    (expectChar ':')).bind (expectChar '0')).bind (expectChar '0')).bind
    (fun rest => match rest with | [] => some () | _ => none)

/-- Reads the YYYY-MM-DD prefix. -/
def parseYMD (cs : List Char) : Option (Nat × Nat × Nat × List Char) :=
  (read4 cs).bind fun py =>
  (expectChar '-' py.2).bind fun r1 =>
  (read2 r1).bind fun pmo =>
  (expectChar '-' pmo.2).bind fun r2 =>
  (read2 r2).bind fun pd =>
  some (py.1, pmo.1, pd.1, pd.2)

/-- Reads an HH:MM:SS group. -/
def parseHMS (cs : List Char) : Option (Nat × Nat × Nat × List Char) :=
  (read2 cs).bind fun ph =>
  (expectChar ':' ph.2).bind fun r4 =>
  (read2 r4).bind fun pmi =>
  (expectChar ':' pmi.2).bind fun r5 =>
  (read2 r5).bind fun ps =>
  some (ph.1, pmi.1, ps.1, ps.2)

/-- Parses YYYY-MM-DDTHH:MM:SS+00:00 back to integer seconds since the epoch. -/
def parseDigits (cs : List Char) : Option Int :=
  (parseYMD cs).bind fun ymd =>
  (expectChar 'T' ymd.2.2.2).bind fun r3 =>
  (parseHMS r3).bind fun hms =>
  (expectTail hms.2.2.2).bind fun _ =>
  some (((days_from_civil ymd.1 ymd.2.1 ymd.2.2.1 * 86400 +
    (hms.1 * 3600 + hms.2.1 * 60 + hms.2.2.1) : Nat) : Int) - (62135596800 : Int))

def parse_iso (s : String) : Option Int := parseDigits s.data

/-- Python dict.get(k): an absent key (none) and a key whose value is null
(some none) both read as Python None; some (some v) reads as v. -/
def pyGet (field : Option (Option α)) : Option α := field.getD none

/-- Python dict.get(k, dflt): the default replaces only an absent key; a key
present with value null still reads as Python None. -/
def pyGetD (field : Option (Option α)) (dflt : α) : Option α := field.getD (some dflt)

/-- Python truthiness of a string-or-None value: None and the empty string are falsy. -/
def pyTruthy (v : Option String) : Bool :=
  match v with
  | none => false
  | some s => if s = "" then false else true

/-- Python truthiness of an int-or-None value: None and 0 are falsy. -/
def pyTruthyInt (v : Option Int) : Bool :=
  match v with
  | none => false
  | some t => if t = 0 then false else true

/-- Python str() of a string-or-None value, as interpolated by an f-string. -/
def strOfOpt (v : Option String) : String :=
  match v with
  | none => "None"
  | some s => s

/-- The whitespace characters stripped by Python str.strip(). -/
def isPySpace (c : Char) : Bool :=
  c == ' ' || c == '\t' || c == '\n' || c == '\r' || c == Char.ofNat 11 || c == Char.ofNat 12

/-- Python str.strip(): removes leading and trailing whitespace. -/
def pyStrip (s : String) : String :=
  String.mk (((s.data.dropWhile isPySpace).reverse.dropWhile isPySpace).reverse)

/-- An author object: a name and a role/type tag, each possibly absent or null. -/
structure Author where
  name : Option (Option String)
  type : Option (Option String)
deriving DecidableEq

/-- The initial message of a conversation (the source object). -/
structure Source where
  body : Option (Option String)
  author : Option Author
deriving DecidableEq

/-- One subsequent conversation part. -/
structure ConvPart where
  body : Option (Option String)
  created_at : Option (Option Int)
  author : Option Author
  part_type : Option (Option String)
deriving DecidableEq

/-- A participant summary. -/
structure Contact where
  type : Option (Option String)
  id : Option (Option String)
  name : Option (Option String)
  email : Option (Option String)
deriving DecidableEq

/-- A full conversation record, per the data model of the spec: nested container
objects are flattened so that a container absent at either level reads as empty. -/
structure Conversation where
  id : Option (Option String)
  created_at : Option (Option Int)
  updated_at : Option (Option Int)
  state : Option (Option String)
  source : Option Source
  conversation_parts : Option (List ConvPart)
  contacts : Option (List Contact)
deriving DecidableEq

/-- Models the expression datetime.fromtimestamp(u, timezone.utc).isoformat() if u
else "No Timestamp": None and 0 are falsy, and an out-of-range timestamp makes
fromtimestamp raise (the error branch). -/
def render_created_at (v : Option Int) : Except String String :=
  if pyTruthyInt v then
    match fromtimestamp_iso (v.getD 0) with
    | some s => Except.ok s
    | none => Except.error "ValueError: timestamp out of range"
  else Except.ok "No Timestamp"

/-- Models author.get('name', and the f-string fallback "Unknown " + str of the
author type tag) from lines 70 and 84 of the source. -/
def author_name (a : Author) : Option String :=
  pyGetD a.name ("Unknown " ++ strOfOpt (pyGet a.type))

/-- The block rendered for a truthy initial message body. -/
def source_block (ts : String) (a : Author) (body : String) : String :=
  "[" ++ ts ++ "] " ++ strOfOpt (author_name a) ++ " (" ++ strOfOpt (pyGet a.type) ++
    " - initial message):\n" ++ pyStrip body

/-- The block rendered for a truthy conversation part body. -/
def part_block (ts : String) (a : Author) (ptype : String) (body : String) : String :=
  "[" ++ ts ++ "] " ++ strOfOpt (author_name a) ++ " (" ++ strOfOpt (pyGet a.type) ++
    " - " ++ ptype ++ "):\n" ++ pyStrip body

/-- The loop over conversation_parts in format_transcript: a part whose body is
falsy is skipped; otherwise its block is rendered in order. -/
def renderParts : List ConvPart → Except String (List String)
  | [] => Except.ok []
  | p :: rest =>
    if pyTruthy (pyGetD p.body "") then
      (render_created_at (pyGet p.created_at)).bind fun ts =>
      (renderParts rest).bind fun restBlocks =>
      Except.ok (part_block ts (p.author.getD ⟨none, none⟩)
        (strOfOpt (pyGetD p.part_type "message")) ((pyGetD p.body "").getD "") :: restBlocks)
    else renderParts rest

/-- Step 1 of format_transcript: the block list for the initial message. -/
def initial_blocks (c : Conversation) : Except String (List String) :=
  let source := c.source.getD ⟨none, none⟩
  if pyTruthy (pyGetD source.body "") then
    (render_created_at (pyGet c.created_at)).bind fun ts =>
    Except.ok [source_block ts (source.author.getD ⟨none, none⟩) ((pyGetD source.body "").getD "")]
  else Except.ok []

/-- Models format_transcript: initial-message block (if the source body is truthy)
then one block per truthy part, joined by a blank line. The error branch carries a
Python exception out of the timestamp conversion. -/
def format_transcript (c : Conversation) : Except String String :=
  (initial_blocks c).bind fun init =>
  (renderParts (c.conversation_parts.getD [])).bind fun partBlocks =>
  Except.ok (String.intercalate "\n\n" (init ++ partBlocks))

/-- A value written into one CSV cell: Python None (written as an empty field),
a string, or an integer. -/
inductive PyScalar where
  | s (v : String)
  | i (v : Int)
deriving DecidableEq

/-- How csv.DictWriter serializes one cell: None becomes the empty field, other
values their str() rendering. -/
def cellRender : Option PyScalar → String
  | none => ""
  | some (PyScalar.s v) => v
  | some (PyScalar.i v) => toString v

def strCell (v : Option String) : Option PyScalar := v.map PyScalar.s

def intCell (v : Option Int) : Option PyScalar := v.map PyScalar.i

/-- Python value.strip() on a string-or-None value: raises AttributeError on None. -/
def pyStripV : Option String → Except String String
  | none => Except.error "AttributeError: NoneType object has no attribute strip"
  | some s => Except.ok (pyStrip s)

/-- Models contact = {} unless the contacts list is non-empty, in which case its
first element (lines 109-111 of the source). -/
def contactOf (c : Conversation) : Contact :=
  match c.contacts.getD [] with
  | [] => ⟨none, none, none, none⟩
  | ct :: _ => ct

def fieldnames : List String :=
  ["id", "created_at", "updated_at", "state", "contact_type", "contact_id",
   "contact_name", "contact_email", "first_message_body", "full_conversation_transcript"]

/-- The row dict built for one conversation in write_to_csv (lines 106-123):
the transcript is computed first, then the cells; stripping a null source body
raises. -/
def rowOf (convo : Conversation) : Except String (List (Option PyScalar)) :=
  (format_transcript convo).bind fun transcript =>
  (pyStripV (pyGetD (convo.source.getD ⟨none, none⟩).body "")).bind fun fmb =>
  Except.ok [strCell (pyGet convo.id), intCell (pyGet convo.created_at),
    intCell (pyGet convo.updated_at), strCell (pyGet convo.state),
    strCell (pyGet (contactOf convo).type), strCell (pyGet (contactOf convo).id),
    strCell (pyGet (contactOf convo).name), strCell (pyGet (contactOf convo).email),
    some (PyScalar.s fmb), some (PyScalar.s transcript)]

/-- The writer loop: rows already written stay in the file; the first record whose
row raises stops the loop and the error propagates. -/
def writeRows : List Conversation → List (List String) × Option String
  | [] => ([], none)
  | c :: rest =>
    match rowOf c with
    | Except.error e => ([], some e)
    | Except.ok row =>
      ((row.map cellRender) :: (writeRows rest).1, (writeRows rest).2)

/-- Models write_to_csv: the first component is the contents of the created file
(header row then data rows) or none when no file is written (empty input); the
second component is the error that propagates out of the loop, if any. -/
def write_to_csv (conversations_data : List Conversation) :
    Option (List (List String)) × Option String :=
  if conversations_data.isEmpty then (none, none)
  else
    (some (fieldnames :: (writeRows conversations_data).1), (writeRows conversations_data).2)

/-- One page of the search endpoint: the conversation identifiers of the summaries
on the page and the optional next cursor of the pagination block. -/
structure PageData where
  conversations : List String
  next : Option String
deriving DecidableEq

/-- The while loop of get_all_conversation_ids over the successive transport
results: a transport failure breaks out with what was collected; an empty page
breaks; a page without a next cursor breaks after collecting. -/
def searchLoop : List (Except String PageData) → List String → List String
  | [], acc => acc
  | Except.error _ :: _, acc => acc
  | Except.ok page :: rest, acc =>
    if page.conversations.isEmpty then acc
    else if page.next.isSome then searchLoop rest (acc ++ page.conversations)
    else acc ++ page.conversations

/-- Models get_all_conversation_ids: responses are the transport results the
search endpoint gives to the successive page requests. -/
def get_all_conversation_ids (responses : List (Except String PageData)) : List String :=
  searchLoop responses []

/-- Models get_conversation_details: the argument is the transport result of the
single GET issued for this conversation; a transport failure is logged and
becomes None, success returns the parsed record. -/
def get_conversation_details (response : Except String Conversation) : Option Conversation :=
  match response with
  | Except.ok r => some r
  | Except.error _ => none

/-- The timestamps of a field are representable whenever present and nonzero
(datetime raises outside this range). -/
def tsOK (v : Option (Option Int)) : Prop :=
  ∀ t : Int, pyGet v = some t → t ≠ 0 → datetimeMin ≤ t ∧ t ≤ datetimeMax

/-- The timestamp string the claim describes: the ISO rendering of a truthy
timestamp, the placeholder otherwise. -/
def claim_ts (v : Option (Option Int)) : String :=
  if pyTruthyInt (pyGet v) then isoString ((pyGet v).getD 0) else "No Timestamp"

/-- The truthy-body test applied to a message or part body field. -/
def truthyBody (b : Option (Option String)) : Bool := pyTruthy (pyGetD b "")

/-- Modelled from the claim (the refinement side of C4): the block for one
non-empty part, as the claim describes it. -/
def claim_part_block (p : ConvPart) : String :=
  part_block (claim_ts p.created_at) (p.author.getD ⟨none, none⟩)
    (strOfOpt (pyGetD p.part_type "message")) ((pyGetD p.body "").getD "")

/-- Modelled from the claim (the refinement side of C4): the blocks for the
initial message (if its body is non-empty) followed by the blocks for exactly
those parts with non-empty body, in the order of the part list. -/
def claim_blocks (c : Conversation) : List String :=
  (if truthyBody (c.source.getD ⟨none, none⟩).body then
    [source_block (claim_ts c.created_at) ((c.source.getD ⟨none, none⟩).author.getD ⟨none, none⟩)
      ((pyGetD (c.source.getD ⟨none, none⟩).body "").getD "")]
  else []) ++
  ((c.conversation_parts.getD []).filter (fun p => truthyBody p.body)).map claim_part_block

/-- All timestamps that format_transcript consults on this record are in range. -/
def FmtOk (c : Conversation) : Prop :=
  (truthyBody (c.source.getD ⟨none, none⟩).body = true → tsOK c.created_at) ∧
  (∀ p ∈ c.conversation_parts.getD [], truthyBody p.body = true → tsOK p.created_at)

theorem civilNum_step (n : Nat) : civilNum n ≤ civilNum (n + 1) := by
  unfold civilNum
  omega

theorem civilNum_mono : Monotone civilNum :=
  monotone_nat_of_le_succ civilNum_step

set_option maxRecDepth 4000 in
theorem yearTable : ∀ y < 400, 365 * y ≤ civilNum (dby y) ∧
    civilNum (dbyNext y - 1) < 365 * (y + 1) ∧ dbyNext y ≤ dby y + 366 := by decide

theorem civilNum_top : civilNum 146096 = 145999 := by decide

theorem yoe_spec (doe : Nat) (h : doe < 146097) :
    yoeOf doe ≤ 399 ∧ dby (yoeOf doe) ≤ doe ∧ doe - dby (yoeOf doe) ≤ 365 := by
  have hmono : civilNum doe ≤ 145999 := civilNum_top ▸ civilNum_mono (by omega)
  have hy : yoeOf doe ≤ 399 := by
    have := Nat.div_le_div_right (c := 365) hmono
    simpa [yoeOf] using this
  have hylo : 365 * yoeOf doe ≤ civilNum doe := by
    have := Nat.div_mul_le_self (civilNum doe) 365
    unfold yoeOf
    omega
  refine ⟨hy, ?_, ?_⟩
  · -- dby (yoeOf doe) ≤ doe
    rcases Nat.eq_zero_or_pos (yoeOf doe) with h0 | hpos
    · simp [h0, dby]
    · by_contra hlt
      push_neg at hlt
      have h1 : yoeOf doe - 1 < 400 := by omega
      have ht := (yearTable (yoeOf doe - 1) h1).2.1
      have hne : dbyNext (yoeOf doe - 1) = dby (yoeOf doe) := by
        have : yoeOf doe - 1 ≠ 399 := by omega
        simp only [dbyNext, this, if_false]
        congr 1
        omega
      rw [hne] at ht
      have hmo : civilNum doe ≤ civilNum (dby (yoeOf doe) - 1) := civilNum_mono (by omega)
      have : yoeOf doe - 1 + 1 = yoeOf doe := by omega
      rw [this] at ht
      omega
  · -- doe - dby (yoeOf doe) ≤ 365
    have hnext : doe < dbyNext (yoeOf doe) := by
      rcases Nat.lt_or_ge (yoeOf doe) 399 with hlt | hge
      · by_contra hcon
        push_neg at hcon
        have hne : dbyNext (yoeOf doe) = dby (yoeOf doe + 1) := by
          simp only [dbyNext, Nat.ne_of_lt hlt, if_false]
        rw [hne] at hcon
        have ht := (yearTable (yoeOf doe + 1) (by omega)).1
        have hmo : civilNum (dby (yoeOf doe + 1)) ≤ civilNum doe := civilNum_mono hcon
        have : yoeOf doe + 1 ≤ civilNum doe / 365 := by
          rw [Nat.le_div_iff_mul_le (by omega)]
          omega
        unfold yoeOf at *
        omega
      · have : yoeOf doe = 399 := by omega
        simp [dbyNext, this, h]
    have ht := (yearTable (yoeOf doe) (by omega)).2.2
    omega

theorem doy_spec (doy : Nat) (h : doy ≤ 365) :
    (5 * doy + 2) / 153 ≤ 11 ∧ (153 * ((5 * doy + 2) / 153) + 2) / 5 ≤ doy ∧
      doy - (153 * ((5 * doy + 2) / 153) + 2) / 5 ≤ 30 := by
  omega

theorem mp_roundtrip : ∀ mp ≤ 11, mpOfM (mOfMp mp) = mp ∧ (mOfMp mp ≤ 2 ↔ 10 ≤ mp) := by
  decide

theorem civil_roundtrip (days : Nat) :
    days_from_civil (yearOfDays days) (monthOfDays days) (dayOfDays days) = days := by
  have hdoe : doeOf days < 146097 := Nat.mod_lt _ (by norm_num)
  obtain ⟨hy399, hdbyle, hdoy365⟩ := yoe_spec (doeOf days) hdoe
  obtain ⟨hmp11, hdle, hd30⟩ := doy_spec (doyOf (doeOf days)) (by unfold doyOf; omega)
  obtain ⟨hmp, hm2⟩ := mp_roundtrip (mpOfDoy (doyOf (doeOf days))) hmp11
  have hera : (days + 306) = eraOf days * 146097 + doeOf days := by
    unfold eraOf doeOf
    omega
  simp only [yearOfDays, monthOfDays, dayOfDays, days_from_civil]
  rw [hmp]
  by_cases hle : mOfMp (mpOfDoy (doyOf (doeOf days))) ≤ 2
  · have h10 : 10 ≤ mpOfDoy (doyOf (doeOf days)) := hm2.mp hle
    simp only [hle, if_true]
    have hsub : eraOf days * 400 + yoeOf (doeOf days) + 1 - 1 =
        eraOf days * 400 + yoeOf (doeOf days) := by omega
    rw [hsub]
    have hdiv : (eraOf days * 400 + yoeOf (doeOf days)) / 400 = eraOf days := by omega
    have hmod : (eraOf days * 400 + yoeOf (doeOf days)) % 400 = yoeOf (doeOf days) := by omega
    rw [hdiv, hmod]
    unfold doyOf dOfDoy mpOfDoy at *
    omega
  · simp only [hle, if_false]
    have hsub : eraOf days * 400 + yoeOf (doeOf days) + 0 - 0 =
        eraOf days * 400 + yoeOf (doeOf days) := by omega
    rw [hsub]
    have hdiv : (eraOf days * 400 + yoeOf (doeOf days)) / 400 = eraOf days := by omega
    have hmod : (eraOf days * 400 + yoeOf (doeOf days)) % 400 = yoeOf (doeOf days) := by omega
    rw [hdiv, hmod]
    unfold doyOf dOfDoy mpOfDoy at *
    omega

theorem digit_base : ∀ r < 10, digit? (Char.ofNat (48 + r)) = some r := by decide

theorem digit_dc (k : Nat) : digit? (dc k) = some (k % 10) :=
  digit_base (k % 10) (Nat.mod_lt _ (by norm_num))

theorem parse_isoChars (y mo d h mi s : Nat) (hy : y < 10000) (hmo : mo < 100)
    (hd : d < 100) (hh : h < 100) (hmi : mi < 100) (hs : s < 100) :
    parseDigits (isoChars y mo d h mi s) =
      some (((days_from_civil y mo d * 86400 + (h * 3600 + mi * 60 + s) : Nat) : Int) -
        (62135596800 : Int)) := by
  have hy4 : 1000 * (y / 1000 % 10) + 100 * (y / 100 % 10) + 10 * (y / 10 % 10) + y % 10 = y := by
    omega
  have hmo2 : 10 * (mo / 10 % 10) + mo % 10 = mo := by omega
  have hd2 : 10 * (d / 10 % 10) + d % 10 = d := by omega
  have hh2 : 10 * (h / 10 % 10) + h % 10 = h := by omega
  have hmi2 : 10 * (mi / 10 % 10) + mi % 10 = mi := by omega
  have hs2 : 10 * (s / 10 % 10) + s % 10 = s := by omega
  simp only [isoChars, parseDigits, parseYMD, parseHMS, read4, read2, expectChar, expectTail,
    digit_dc, Option.bind_some, Option.some_bind, if_true, reduceIte]
  rw [hy4, hmo2, hd2, hh2, hmi2, hs2]

theorem yearOfDays_le (days : Nat) (h : days ≤ 3652058) : yearOfDays days ≤ 9999 := by
  have hdoe : doeOf days < 146097 := Nat.mod_lt _ (by norm_num)
  obtain ⟨hy399, hdbyle, hdoy365⟩ := yoe_spec (doeOf days) hdoe
  obtain ⟨hmp11, hdle, hd30⟩ := doy_spec (doyOf (doeOf days)) (by unfold doyOf; omega)
  obtain ⟨hmp, hm2⟩ := mp_roundtrip (mpOfDoy (doyOf (doeOf days))) hmp11
  have hera : eraOf days ≤ 24 := by unfold eraOf; omega
  unfold yearOfDays
  by_cases hle : mOfMp (mpOfDoy (doyOf (doeOf days))) ≤ 2
  · have h10 : 10 ≤ mpOfDoy (doyOf (doeOf days)) := hm2.mp hle
    simp only [hle, if_true]
    rcases Nat.lt_or_ge (eraOf days) 24 with h24 | h24
    · omega
    · have heq : eraOf days = 24 := by omega
      have hdoee : doeOf days ≤ 146036 := by
        unfold doeOf eraOf at *
        omega
      have hdoy : 306 ≤ doyOf (doeOf days) := by
        unfold mpOfDoy at h10
        omega
      have hyoe : yoeOf (doeOf days) ≤ 398 := by
        by_contra hc
        push_neg at hc
        have h399 : yoeOf (doeOf days) = 399 := by omega
        have hdby : dby (yoeOf (doeOf days)) = 145731 := by rw [h399]; decide
        unfold doyOf at hdoy
        omega
      omega
  · simp only [hle, if_false]
    omega

theorem monthOfDays_lt (days : Nat) : monthOfDays days < 100 := by
  have hdoe : doeOf days < 146097 := Nat.mod_lt _ (by norm_num)
  obtain ⟨hy399, hdbyle, hdoy365⟩ := yoe_spec (doeOf days) hdoe
  obtain ⟨hmp11, hdle, hd30⟩ := doy_spec (doyOf (doeOf days)) (by unfold doyOf; omega)
  unfold monthOfDays mOfMp
  unfold mpOfDoy at *
  split <;> omega

theorem dayOfDays_lt (days : Nat) : dayOfDays days < 100 := by
  have hdoe : doeOf days < 146097 := Nat.mod_lt _ (by norm_num)
  obtain ⟨hy399, hdbyle, hdoy365⟩ := yoe_spec (doeOf days) hdoe
  obtain ⟨hmp11, hdle, hd30⟩ := doy_spec (doyOf (doeOf days)) (by unfold doyOf; omega)
  unfold dayOfDays dOfDoy
  unfold mpOfDoy at *
  omega

/-- The ISO rendering of an in-range timestamp parses back to exactly that timestamp. -/
theorem iso_roundtrip (t : Int) (h1 : datetimeMin ≤ t) (h2 : t ≤ datetimeMax) :
    parse_iso (isoString t) = some t := by
  have hn : (civilSecs t : Int) = t + 62135596800 := by
    unfold civilSecs datetimeMin at *
    omega
  have hnmax : civilSecs t ≤ 315537897599 := by
    unfold datetimeMax at h2
    omega
  have hdays : daysOf t ≤ 3652058 := by unfold daysOf; omega
  have hy : yearOfDays (daysOf t) < 10000 :=
    Nat.lt_succ_of_le (yearOfDays_le (daysOf t) hdays)
  have hsod : sodOf t < 86400 := Nat.mod_lt _ (by norm_num)
  unfold parse_iso isoString
  rw [show (String.mk (isoChars (yearOfDays (daysOf t)) (monthOfDays (daysOf t))
      (dayOfDays (daysOf t)) (sodOf t / 3600) (sodOf t % 3600 / 60) (sodOf t % 60))).data =
      isoChars (yearOfDays (daysOf t)) (monthOfDays (daysOf t)) (dayOfDays (daysOf t))
      (sodOf t / 3600) (sodOf t % 3600 / 60) (sodOf t % 60) from rfl]
  rw [parse_isoChars _ _ _ _ _ _ hy (monthOfDays_lt _) (dayOfDays_lt _) (by omega) (by omega)
    (by omega)]
  rw [civil_roundtrip]
  have hrec : daysOf t * 86400 + (sodOf t / 3600 * 3600 + sodOf t % 3600 / 60 * 60 +
      sodOf t % 60) = civilSecs t := by
    unfold daysOf sodOf
    omega
  rw [hrec]
  rw [hn]
  ring_nf

theorem render_created_at_ok (v : Option (Option Int)) (h : tsOK v) :
    render_created_at (pyGet v) = Except.ok (claim_ts v) := by
  unfold tsOK at h
  unfold render_created_at claim_ts
  cases hv : pyGet v with
  | none => simp [pyTruthyInt]
  | some t =>
    by_cases ht : t = 0
    · subst ht
      simp [pyTruthyInt]
    · obtain ⟨h1, h2⟩ := h t hv ht
      simp only [pyTruthyInt, ht, if_false, if_true, Option.getD_some]
      unfold fromtimestamp_iso
      rw [if_neg (by omega)]

theorem renderParts_eq (ps : List ConvPart)
    (h : ∀ p ∈ ps, truthyBody p.body = true → tsOK p.created_at) :
    renderParts ps = Except.ok ((ps.filter (fun p => truthyBody p.body)).map claim_part_block) := by
  induction ps with
  | nil => rfl
  | cons p rest ih =>
    have hrest : renderParts rest =
        Except.ok ((rest.filter (fun p => truthyBody p.body)).map claim_part_block) :=
      ih (fun q hq => h q (List.mem_cons_of_mem p hq))
    by_cases hb : truthyBody p.body = true
    · have hts := render_created_at_ok p.created_at (h p (List.mem_cons_self p rest) hb)
      have hb' : pyTruthy (pyGetD p.body "") = true := hb
      rw [List.filter_cons, if_pos hb, List.map_cons]
      simp only [renderParts, hb', if_true, hts, hrest]
      rfl
    · have hb' : pyTruthy (pyGetD p.body "") = false := by
        unfold truthyBody at hb
        simpa using hb
      rw [List.filter_cons, if_neg hb]
      simp only [renderParts, hb', if_false]
      exact hrest

theorem initial_blocks_eq (c : Conversation)
    (h : truthyBody (c.source.getD ⟨none, none⟩).body = true → tsOK c.created_at) :
    initial_blocks c = Except.ok
      (if truthyBody (c.source.getD ⟨none, none⟩).body then
        [source_block (claim_ts c.created_at)
          ((c.source.getD ⟨none, none⟩).author.getD ⟨none, none⟩)
          ((pyGetD (c.source.getD ⟨none, none⟩).body "").getD "")]
      else []) := by
  by_cases hb : truthyBody (c.source.getD ⟨none, none⟩).body = true
  · have hts := render_created_at_ok c.created_at (h hb)
    have hb' : pyTruthy (pyGetD (c.source.getD ⟨none, none⟩).body "") = true := hb
    rw [if_pos hb]
    simp only [initial_blocks, hb', if_true, hts]
    rfl
  · have hb' : pyTruthy (pyGetD (c.source.getD ⟨none, none⟩).body "") = false := by
      unfold truthyBody at hb
      simpa using hb
    rw [if_neg hb]
    simp only [initial_blocks, hb', if_false]
    rfl

theorem format_transcript_eq (c : Conversation) (h : FmtOk c) :
    format_transcript c = Except.ok (String.intercalate "\n\n" (claim_blocks c)) := by
  obtain ⟨h1, h2⟩ := h
  unfold format_transcript claim_blocks
  rw [initial_blocks_eq c h1, renderParts_eq _ h2]
  rfl

theorem except_bind_ok (x : α) (f : α → Except ε β) : (Except.ok x >>= f) = f x := rfl

theorem except_bind_error (e : ε) (f : α → Except ε β) :
    ((Except.error e : Except ε α) >>= f) = Except.error e := rfl

theorem searchLoop_goods (good : List PageData) :
    ∀ (acc : List String) (tail : List (Except String PageData)),
      (∀ p ∈ good, p.conversations ≠ [] ∧ p.next.isSome = true) →
      searchLoop (good.map Except.ok ++ tail) acc =
        searchLoop tail (acc ++ (good.map PageData.conversations).flatten) := by
  induction good with
  | nil =>
    intro acc tail h
    simp
  | cons p good ih =>
    intro acc tail h
    obtain ⟨hne, hnext⟩ := h p (List.mem_cons_self p good)
    have hie : p.conversations.isEmpty = false := by
      simpa [List.isEmpty_iff] using hne
    simp only [List.map_cons, List.cons_append, searchLoop, hie, Bool.false_eq_true, if_false,
      hnext, if_true, List.append_eq]
    rw [ih (acc ++ p.conversations) tail (fun q hq => h q (List.mem_cons_of_mem p hq))]
    simp

theorem pyStrip_all_space (s : String) (h : s.data.all isPySpace = true) : pyStrip s = "" := by
  unfold pyStrip
  have h1 : s.data.dropWhile isPySpace = [] := by
    rw [List.dropWhile_eq_nil_iff]
    intro x hx
    exact (List.all_eq_true.mp h) x hx
  rw [h1]
  rfl

theorem writeRows_ok (data : List Conversation) :
    ∀ rows, data.mapM rowOf = Except.ok rows →
      writeRows data = (rows.map (List.map cellRender), none) ∧ rows.length = data.length := by
  induction data with
  | nil =>
    intro rows h
    simp only [List.mapM_nil] at h
    have : rows = [] := by
      cases rows with
      | nil => rfl
      | cons a l => simp [pure, Except.pure] at h
    subst this
    exact ⟨rfl, rfl⟩
  | cons c rest ih =>
    intro rows h
    rw [List.mapM_cons] at h
    cases hc : rowOf c with
    | error e =>
      rw [hc, except_bind_error] at h
      cases h
    | ok row =>
      rw [hc, except_bind_ok] at h
      cases hr : rest.mapM rowOf with
      | error e =>
        rw [hr, except_bind_error] at h
        cases h
      | ok rs =>
        rw [hr, except_bind_ok] at h
        have hrows : rows = row :: rs := by
          cases h
          rfl
        subst hrows
        obtain ⟨h1, h2⟩ := ih rs hr
        unfold writeRows
        rw [hc, h1]
        exact ⟨rfl, by simpa using h2⟩

/-- C1, counterexample: the timestamp renderer maps t = 0 to the placeholder
"No Timestamp", which is not an ISO-8601 string and parses back to no timestamp,
contradicting the claim that every integer t, including 0, renders to an
ISO string parseable back to t. -/
theorem C1_zero_renders_placeholder :
    render_created_at (some 0) = Except.ok "No Timestamp" ∧
    parse_iso "No Timestamp" = none :=
  ⟨rfl, rfl⟩

/-- C1, amended: for every nonzero integer t within the datetime-representable
range, the renderer produces the ISO-8601 UTC string of t, parseable back to
exactly t with no local-timezone adjustment; an absent (None) timestamp and
t = 0 both yield exactly "No Timestamp"; a nonzero t outside the range makes
the conversion raise. -/
theorem C1_render_roundtrip_amended :
    (∀ t : Int, t ≠ 0 → datetimeMin ≤ t → t ≤ datetimeMax →
      render_created_at (some t) = Except.ok (isoString t) ∧
      parse_iso (isoString t) = some t) ∧
    render_created_at none = Except.ok "No Timestamp" ∧
    render_created_at (some 0) = Except.ok "No Timestamp" ∧
    (∀ t : Int, t ≠ 0 → (t < datetimeMin ∨ datetimeMax < t) →
      render_created_at (some t) = Except.error "ValueError: timestamp out of range") := by
  refine ⟨?_, rfl, rfl, ?_⟩
  · intro t h0 h1 h2
    constructor
    · simp only [render_created_at, pyTruthyInt, h0, if_false, if_true, Option.getD_some,
        fromtimestamp_iso]
      rw [if_neg (by push_neg; exact ⟨h1, h2⟩)]
    · exact iso_roundtrip t h1 h2
  · intro t h0 hout
    simp only [render_created_at, pyTruthyInt, h0, if_false, if_true, Option.getD_some,
      fromtimestamp_iso]
    rw [if_pos hout]

theorem C1_witness :
    render_created_at (some 1705314600) = Except.ok "2024-01-15T10:30:00+00:00" ∧
    parse_iso "2024-01-15T10:30:00+00:00" = some 1705314600 := by
  have h := C1_render_roundtrip_amended.1 1705314600 (by decide) (by decide) (by decide)
  have hs : isoString 1705314600 = "2024-01-15T10:30:00+00:00" := by decide
  rw [hs] at h
  exact h

/-- C2: the claim says formatting and the row projection never raise, naming a
null message body as an example; but on a record whose source body is the null
value the writer's row projection raises AttributeError from None.strip()
(format_transcript itself survives, skipping the falsy body), so the written
file stops at the header and the error propagates. -/
theorem C2_null_body_projection_raises :
    format_transcript ⟨some (some "conv-null-body"), none, none, none,
      some ⟨some none, none⟩, none, none⟩ = Except.ok "" ∧
    rowOf ⟨some (some "conv-null-body"), none, none, none,
      some ⟨some none, none⟩, none, none⟩ =
      Except.error "AttributeError: NoneType object has no attribute strip" ∧
    write_to_csv [⟨some (some "conv-null-body"), none, none, none,
      some ⟨some none, none⟩, none, none⟩] =
      (some [fieldnames], some "AttributeError: NoneType object has no attribute strip") :=
  ⟨rfl, rfl, rfl⟩

/-- C3: the listing loop terminates on any finite sequence of transport results,
and a transport failure at any page stops it immediately without retrying,
returning exactly the identifiers collected from the earlier (successful,
non-empty, cursor-bearing) pages, in order. -/
theorem C3_transport_failure_stops (good : List PageData) (e : String)
    (rest : List (Except String PageData))
    (h : ∀ p ∈ good, p.conversations ≠ [] ∧ p.next.isSome = true) :
    get_all_conversation_ids (good.map Except.ok ++ Except.error e :: rest) =
      (good.map PageData.conversations).flatten := by
  unfold get_all_conversation_ids
  rw [searchLoop_goods good [] (Except.error e :: rest) h]
  rfl

theorem C3_witness :
    get_all_conversation_ids [Except.ok ⟨["a", "b"], some "cursorA"⟩,
      Except.error "ConnectionError", Except.ok ⟨["z"], none⟩] = ["a", "b"] :=
  C3_transport_failure_stops [⟨["a", "b"], some "cursorA"⟩] "ConnectionError"
    [Except.ok ⟨["z"], none⟩] (by decide)

/-- C4, counterexample: the claim quantifies over every record, but a record with
a non-empty initial body and a timestamp outside the datetime-representable range
makes format_transcript raise instead of returning the joined blocks. -/
theorem C4_out_of_range_raises :
    format_transcript ⟨none, some (some 253402300800), none, none,
      some ⟨some (some "hello"), none⟩, none, none⟩ =
      Except.error "ValueError: timestamp out of range" :=
  rfl

/-- C4, amended: for every record whose consulted timestamps are representable,
format_transcript returns exactly the block for the initial message (when its
body is non-empty) followed by the blocks of exactly those parts with non-empty
body, in part-list order, joined by one blank line (two newlines); and a record
with no non-empty body yields the empty string. -/
theorem C4_blocks_amended :
    (∀ c : Conversation, FmtOk c →
      format_transcript c = Except.ok (String.intercalate "\n\n" (claim_blocks c))) ∧
    (∀ c : Conversation, truthyBody (c.source.getD ⟨none, none⟩).body = false →
      (∀ p ∈ c.conversation_parts.getD [], truthyBody p.body = false) →
      format_transcript c = Except.ok "") := by
  constructor
  · exact format_transcript_eq
  · intro c h1 h2
    have hfmt : FmtOk c := by
      constructor
      · intro hb
        rw [h1] at hb
        cases hb
      · intro p hp hb
        rw [h2 p hp] at hb
        cases hb
    rw [format_transcript_eq c hfmt]
    unfold claim_blocks
    rw [if_neg (by rw [h1]; exact Bool.false_ne_true)]
    have hfil : (c.conversation_parts.getD []).filter (fun p => truthyBody p.body) = [] := by
      rw [List.filter_eq_nil_iff]
      intro p hp
      rw [h2 p hp]
      exact Bool.false_ne_true
    rw [hfil]
    rfl

theorem C4_witness :
    format_transcript ⟨some (some "c1"), some (some 1705314600), none, none,
      some ⟨some (some "Hello  "), some ⟨some (some "Alice"), some (some "user")⟩⟩,
      some [⟨some none, none, none, none⟩,
        ⟨some (some " Hi"), some (some 1705314601),
          some ⟨none, some (some "admin")⟩, some (some "comment")⟩,
        ⟨some (some ""), none, none, none⟩],
      none⟩ =
    Except.ok ("[2024-01-15T10:30:00+00:00] Alice (user - initial message):\nHello\n\n[2024-01-15T10:30:01+00:00] Unknown admin (admin - comment):\nHi") := by
  have h := C4_blocks_amended.1 ⟨some (some "c1"), some (some 1705314600), none, none,
      some ⟨some (some "Hello  "), some ⟨some (some "Alice"), some (some "user")⟩⟩,
      some [⟨some none, none, none, none⟩,
        ⟨some (some " Hi"), some (some 1705314601),
          some ⟨none, some (some "admin")⟩, some (some "comment")⟩,
        ⟨some (some ""), none, none, none⟩],
      none⟩
    (by
      constructor
      · intro _ t ht hn
        simp only [pyGet, Option.getD_some, Option.some.injEq] at ht
        unfold datetimeMin datetimeMax
        omega
      · intro p hp hb
        simp only [Option.getD_some, List.mem_cons, List.not_mem_nil, or_false] at hp
        rcases hp with h1 | h1 | h1
        · subst h1
          intro t ht hn
          simp [pyGet] at ht
        · subst h1
          intro t ht hn
          simp only [pyGet, Option.getD_some, Option.some.injEq] at ht
          unfold datetimeMin datetimeMax
          omega
        · subst h1
          intro t ht hn
          simp [pyGet] at ht)
  rw [h]
  rfl

/-- C5: the listing loop continues exactly while the page is non-empty and the
response carries a next cursor: an empty first page yields zero identifiers no
matter the cursor; each successful page either stops the loop (empty page, or
no cursor after appending) or appends its identifiers and goes on; on the
mocked page sequence the loop returns the three identifiers of pages 1-2 in
order and never consumes the page after the empty one. -/
theorem C5_loop_invariant :
    (∀ (x : Option String) (rest : List (Except String PageData)),
      get_all_conversation_ids (Except.ok ⟨[], x⟩ :: rest) = []) ∧
    (∀ (page : PageData) (rest : List (Except String PageData)) (acc : List String),
      searchLoop (Except.ok page :: rest) acc =
        if page.conversations.isEmpty then acc
        else if page.next.isSome then searchLoop rest (acc ++ page.conversations)
        else acc ++ page.conversations) ∧
    get_all_conversation_ids [Except.ok ⟨["id1", "id2"], some "A"⟩,
      Except.ok ⟨["id3"], some "B"⟩, Except.ok ⟨[], some "C"⟩,
      Except.ok ⟨["id4"], some "D"⟩] = ["id1", "id2", "id3"] := by
  refine ⟨fun x rest => rfl, fun page rest acc => rfl, by decide⟩

/-- C6: the detail fetcher returns the parsed record on a successful transport
result and absent (None) on any transport failure, never raising past its
boundary; the single argument is the response to the one GET request issued. -/
theorem C6_fetch_detail (r : Conversation) (e : String) :
    get_conversation_details (Except.ok r) = some r ∧
    get_conversation_details (Except.error e) = none :=
  ⟨rfl, rfl⟩

theorem Except_bind_ok (x : α) (f : α → Except ε β) : Except.bind (Except.ok x) f = f x := rfl

theorem Except_bind_error (e : ε) (f : α → Except ε β) :
    Except.bind (Except.error e) f = Except.error e := rfl

/-- C7, counterexample: on a non-empty input containing a record whose source
body is null, the writer does not produce a header row plus one data row per
record: the file stops after the header and the AttributeError propagates. -/
theorem C7_partial_write :
    write_to_csv [⟨some (some "conv-7"), none, none, none,
      some ⟨some none, none⟩, none, none⟩] =
      (some [fieldnames], some "AttributeError: NoneType object has no attribute strip") :=
  rfl

/-- C7, amended: an empty record sequence writes no file and raises no error;
a non-empty sequence, provided every row projection succeeds, yields a file of
exactly the 10-column header row followed by one data row per record in input
order; a record whose projection raises leaves a partial file and an error. -/
theorem C7_writer_amended :
    write_to_csv [] = (none, none) ∧
    fieldnames = ["id", "created_at", "updated_at", "state", "contact_type", "contact_id",
      "contact_name", "contact_email", "first_message_body", "full_conversation_transcript"] ∧
    (∀ (data : List Conversation) (rows : List (List (Option PyScalar))),
      data ≠ [] → data.mapM rowOf = Except.ok rows →
      write_to_csv data = (some (fieldnames :: rows.map (List.map cellRender)), none) ∧
      rows.length = data.length) := by
  refine ⟨rfl, rfl, ?_⟩
  intro data rows hne h
  obtain ⟨h1, h2⟩ := writeRows_ok data rows h
  unfold write_to_csv
  rw [if_neg (by simpa [List.isEmpty_iff] using hne), h1]
  exact ⟨rfl, h2⟩

theorem C7_witness :
    write_to_csv [⟨some (some "c1"), some (some 5), none, some (some "open"),
      none, none, none⟩] =
      (some [fieldnames, ["c1", "5", "", "open", "", "", "", "", "", ""]], none) :=
  (C7_writer_amended.2.2 [⟨some (some "c1"), some (some 5), none, some (some "open"),
      none, none, none⟩]
    [[some (PyScalar.s "c1"), some (PyScalar.i 5), none, some (PyScalar.s "open"),
      none, none, none, none, some (PyScalar.s ""), some (PyScalar.s "")]]
    (by simp) rfl).1

/-- C8, counterexample: a record with no contacts list does not always yield a
row with four empty contact columns: when its source body is null the row
projection raises instead of producing any row. -/
theorem C8_no_contacts_raises :
    (⟨some (some "conv-8"), none, none, none, some ⟨some none, none⟩, none, none⟩ :
      Conversation).contacts.getD [] = [] ∧
    rowOf ⟨some (some "conv-8"), none, none, none, some ⟨some none, none⟩, none, none⟩ =
      Except.error "AttributeError: NoneType object has no attribute strip" :=
  ⟨rfl, rfl⟩

/-- C8, amended: whenever the row projection of a record with no contacts list
succeeds, the produced row has exactly 10 cells and its four contact cells
(columns 4-7) hold Python None, which the CSV writer serializes as empty
fields; None cells generally serialize as empty fields. -/
theorem C8_contact_columns_amended :
    (∀ (c : Conversation) (row : List (Option PyScalar)),
      c.contacts.getD [] = [] → rowOf c = Except.ok row →
      row.length = 10 ∧ row.get? 4 = some none ∧ row.get? 5 = some none ∧
        row.get? 6 = some none ∧ row.get? 7 = some none) ∧
    cellRender none = "" := by
  refine ⟨?_, rfl⟩
  intro c row hc hrow
  have hcontact : contactOf c = ⟨none, none, none, none⟩ := by
    unfold contactOf
    rw [hc]
  unfold rowOf at hrow
  cases hf : format_transcript c with
  | error e =>
    rw [hf, Except_bind_error] at hrow
    cases hrow
  | ok t =>
    rw [hf, Except_bind_ok] at hrow
    cases hs : pyStripV (pyGetD (c.source.getD ⟨none, none⟩).body "") with
    | error e =>
      rw [hs, Except_bind_error] at hrow
      cases hrow
    | ok fmb =>
      rw [hs, Except_bind_ok, hcontact] at hrow
      cases hrow
      exact ⟨rfl, rfl, rfl, rfl, rfl⟩

theorem C8_witness :
    rowOf ⟨none, none, none, none, none, none, none⟩ =
      Except.ok [none, none, none, none, none, none, none, none,
        some (PyScalar.s ""), some (PyScalar.s "")] ∧
    [none, none, none, none, none, none, none, none,
      some (PyScalar.s ""), some (PyScalar.s "")].get? (4 : Nat) =
      (some none : Option (Option PyScalar)) ∧
    cellRender none = "" := by
  have h := C8_contact_columns_amended.1 ⟨none, none, none, none, none, none, none⟩
    [none, none, none, none, none, none, none, none,
      some (PyScalar.s ""), some (PyScalar.s "")] rfl rfl
  exact ⟨rfl, h.2.1, C8_contact_columns_amended.2⟩

/-- C9: the "Unknown role" fallback author name is synthesized only when the
name key is absent from the author object; a name key present with a null
value is rendered by the f-string as the literal string "None", and a string
name is rendered as itself. -/
theorem C9_null_author_name (a : Author) :
    (a.name = some none → strOfOpt (author_name a) = "None") ∧
    (a.name = none → strOfOpt (author_name a) = "Unknown " ++ strOfOpt (pyGet a.type)) ∧
    (∀ s, a.name = some (some s) → strOfOpt (author_name a) = s) := by
  refine ⟨?_, ?_, ?_⟩
  · intro h
    unfold author_name pyGetD
    rw [h]
    rfl
  · intro h
    unfold author_name pyGetD
    rw [h]
    rfl
  · intro s h
    unfold author_name pyGetD
    rw [h]
    rfl

theorem C9_witness :
    strOfOpt (author_name ⟨some none, some (some "admin")⟩) = "None" ∧
    strOfOpt (author_name ⟨none, some (some "bot")⟩) = "Unknown bot" ∧
    strOfOpt (author_name ⟨some (some "Alice"), none⟩) = "Alice" :=
  ⟨(C9_null_author_name ⟨some none, some (some "admin")⟩).1 rfl,
    (C9_null_author_name ⟨none, some (some "bot")⟩).2.1 rfl,
    (C9_null_author_name ⟨some (some "Alice"), none⟩).2.2 "Alice" rfl⟩

/-- C10, counterexample: a part whose body is non-empty whitespace passes the
emptiness check, but it is not always rendered as a header plus empty body:
with an out-of-range timestamp the rendering raises instead. -/
theorem C10_whitespace_out_of_range :
    renderParts [⟨some (some "   "), some (some 253402300800), none, none⟩] =
      Except.error "ValueError: timestamp out of range" ∧
    format_transcript ⟨none, none, none, none, none,
      some [⟨some (some "   "), some (some 253402300800), none, none⟩], none⟩ =
      Except.error "ValueError: timestamp out of range" :=
  ⟨rfl, rfl⟩

/-- C10, amended: a part whose body is a non-empty all-whitespace string passes
the truthiness check and (when its timestamp is representable) is rendered as
its header block with the body stripped to the empty string; a part is skipped
exactly when its body reads as None or the empty string. -/
theorem C10_whitespace_kept_amended :
    (∀ (p : ConvPart) (s : String), p.body = some (some s) → s ≠ "" →
      s.data.all isPySpace = true → tsOK p.created_at →
      pyStrip s = "" ∧ renderParts [p] =
        Except.ok [part_block (claim_ts p.created_at) (p.author.getD ⟨none, none⟩)
          (strOfOpt (pyGetD p.part_type "message")) s]) ∧
    (∀ (p : ConvPart) (ps : List ConvPart), pyTruthy (pyGetD p.body "") = false →
      renderParts (p :: ps) = renderParts ps) ∧
    (∀ p : ConvPart, pyTruthy (pyGetD p.body "") = false ↔
      (p.body = none ∨ p.body = some none ∨ p.body = some (some ""))) := by
  refine ⟨?_, ?_, ?_⟩
  · intro p s hb hne hall hts
    have hstrip := pyStrip_all_space s hall
    have htr : pyTruthy (pyGetD p.body "") = true := by
      rw [hb]
      simp [pyGetD, pyTruthy, hne]
    have hr := render_created_at_ok p.created_at hts
    refine ⟨hstrip, ?_⟩
    simp only [renderParts, htr, if_true, hr]
    rw [hb]
    rfl
  · intro p ps h
    simp [renderParts, h]
  · intro p
    rcases hb : p.body with _ | b
    · simp [pyGetD, pyTruthy]
    · rcases b with _ | s
      · simp [pyGetD, pyTruthy]
      · by_cases hs : s = ""
        · subst hs
          simp [pyGetD, pyTruthy]
        · simp [pyGetD, pyTruthy, hs]

theorem C10_witness :
    pyStrip " \t " = "" ∧
    renderParts [⟨some (some " \t "), none,
      some ⟨some (some "Bob"), some (some "user")⟩, some (some "note")⟩] =
      Except.ok ["[No Timestamp] Bob (user - note):\n"] := by
  have h := C10_whitespace_kept_amended.1
    ⟨some (some " \t "), none, some ⟨some (some "Bob"), some (some "user")⟩,
      some (some "note")⟩ " \t " rfl (by decide) (by decide)
    (by intro t ht hn; simp [pyGet] at ht)
  exact ⟨h.1, h.2⟩
